import Mathlib

/-!
Verification development for the pwa-studio frontend repository.

Shallow embedding of the code artifacts the claims are about:
* the ServiceWorkerPlugin webpack plugin (constructor validation and the
  mode dispatch in `apply`),
* the `addImgOptMiddleware` image-optimization middleware wiring,
* the `useCreateAccount` talon (`handleSubmit` flow and the `errors` array),
* `getDiscount` from the DiscountSummary component,
* the redirect effect of the `useAuthModal` talon.

Effectful JavaScript is modelled by explicit environments recording the
outcome of each external call, and by result values listing the observable
effects (plugins applied, middleware mounted, console output, state updates).
Fallible code returns `Except`.
-/

set_option autoImplicit false

namespace PwaStudio

/-- A JavaScript value as far as the plugin configuration checks observe it:
a string, some non-string value, or absent (`undefined`). -/
inductive JsValue where
  | str (s : String)
  | num (n : Int)
  | boolean (b : Bool)
  | undef
deriving DecidableEq, Repr

/-- `true` exactly when the value is a string (`typeof v === 'string'`). -/
def JsValue.isString : JsValue → Bool
  | .str _ => true
  | _ => false

/-- The string payload of a `JsValue`; non-strings give `""`. Validation
guarantees it is only read on strings. -/
def JsValue.asString : JsValue → String
  | .str s => s
  | _ => ""

/-- The `injectManifestConfig` object handed to the manifest-injection
strategy; the caller supplies the service-worker source file `swSrc` and
destination `swDest`. -/
structure InjectManifestConfig where
  swSrc : String
  swDest : String
deriving DecidableEq, Repr

/-- The `paths` section of the plugin configuration. An absent `paths`
object is modelled as `output = JsValue.undef` (in JavaScript both an
absent `paths` and an absent `paths.output` make construction throw). -/
structure SWPaths where
  output : JsValue
deriving DecidableEq, Repr

/-- The recognized ServiceWorkerPlugin configuration options
(`mode`, `paths.output`, `runtimeCacheAssetPath`,
`enableServiceWorkerDebugging`, `injectManifest`, `injectManifestConfig`). -/
structure SWPluginConfig where
  mode : JsValue
  paths : SWPaths
  runtimeCacheAssetPath : String
  enableServiceWorkerDebugging : Bool
  injectManifest : Bool
  injectManifestConfig : InjectManifestConfig
deriving DecidableEq, Repr

/-- A constructed ServiceWorkerPlugin instance: it holds its validated
configuration, and `ServiceWorkerPlugin.apply` below is its `apply` method. -/
structure ServiceWorkerPlugin where
  config : SWPluginConfig
deriving DecidableEq, Repr

/-- Modelled from the spec: `ServiceWorkerPlugin.js` itself is not among the
provided sources (only its unit tests are), so the constructor is modelled
from the spec — "Validation: fails fast if `mode` or `paths.output` are
absent or non-string." — with the error messages the repository's tests
assert. Construction returns the plugin object on success and an error
(a thrown exception) otherwise. -/
def ServiceWorkerPlugin.create (config : SWPluginConfig) : Except String ServiceWorkerPlugin :=
  if config.mode.isString then
    if config.paths.output.isString then
      .ok { config := config }
    else
      .error "paths.output must be of type string"
  else
    .error "mode must be of type string"

/-- An observable effect of running the plugin's `apply` method: applying
the Workbox precache-generation plugin, applying the Workbox
manifest-injection plugin, applying the write-file plugin, or printing a
console warning. -/
inductive SWEffect where
  | generateSW (globDirectory : String) (swDest : String)
  | injectManifest (config : InjectManifestConfig)
  | writeFile (pattern : String) (log : Bool)
  | warn (msg : String)
deriving DecidableEq, Repr

/-- The destination filename of the generated service worker: `sw.<hash>.js`,
where `<hash>` is the content hash produced by `createFileHash`. -/
def swFileName (hash : String) : String :=
  "sw." ++ hash ++ ".js"

/-- Modelled from the spec: the worker-generation step of `apply`
(missing from the sources). "If `injectManifest` is true, delegates to a
manifest-injection strategy against a caller-supplied source file instead of
full generation"; otherwise it generates a precaching service worker over
the configured output directory, named with a content hash suffix. -/
def ServiceWorkerPlugin.applyWorkbox (p : ServiceWorkerPlugin) (hash : String) :
    List SWEffect :=
  if p.config.injectManifest then
    [.injectManifest p.config.injectManifestConfig]
  else
    [.generateSW p.config.paths.output.asString (swFileName hash)]

/-- Modelled from the spec: the `apply` method (missing from the sources).
"In `production` mode, always generates a precaching service worker … In
`development` mode, emits nothing by default (logs a warning) unless
`enableServiceWorkerDebugging` is true, in which case it generates the
service worker and additionally writes it to disk for inspection." The
write-file plugin is configured with the end-anchored pattern built from the
generated filename, as the repository's tests assert. `hash` is the result
of the awaited `createFileHash` call. -/
def ServiceWorkerPlugin.applyTo (p : ServiceWorkerPlugin) (hash : String) :
    List SWEffect :=
  if p.config.mode = .str "development" then
    if p.config.enableServiceWorkerDebugging then
      p.applyWorkbox hash ++ [.writeFile (swFileName hash ++ "$") true]
    else
      [.warn "Emitting no ServiceWorker in development mode."]
  else
    p.applyWorkbox hash

/-- A convenient well-formed configuration used by witnesses. -/
def sampleConfig : SWPluginConfig :=
  { mode := .str "development"
    paths := { output := .str "path/to/assets" }
    runtimeCacheAssetPath := "https://location/of/assets"
    enableServiceWorkerDebugging := false
    injectManifest := false
    injectManifestConfig := { swSrc := "path/to/sw", swDest := "path/to/dest" } }

/-- **C1.** Constructing a ServiceWorkerPlugin fails (throws) exactly when
`mode` is absent or not a string or `paths.output` is absent or not a
string; when both are strings, construction succeeds and yields a plugin
object (whose `apply` behaviour is `ServiceWorkerPlugin.applyTo`) carrying
the given configuration. -/
theorem swPlugin_create_ok_iff_strings (config : SWPluginConfig) :
    (∃ p : ServiceWorkerPlugin,
        ServiceWorkerPlugin.create config = .ok p ∧ p.config = config) ↔
      (config.mode.isString = true ∧ config.paths.output.isString = true) := by
  constructor
  · rintro ⟨p, hp, hcfg⟩
    by_cases hm : config.mode.isString = true
    · by_cases ho : config.paths.output.isString = true
      · exact ⟨hm, ho⟩
      · simp [ServiceWorkerPlugin.create, hm, ho] at hp
    · simp [ServiceWorkerPlugin.create, hm] at hp
  · rintro ⟨hm, ho⟩
    exact ⟨{ config := config }, by simp [ServiceWorkerPlugin.create, hm, ho], rfl⟩

/-- Witness for C1: on the sample configuration (both `mode` and
`paths.output` strings) construction succeeds; on the empty-style
configuration (`mode` absent) both sides of the equivalence fail. -/
theorem swPlugin_create_ok_iff_strings_witness :
    (∃ p : ServiceWorkerPlugin,
        ServiceWorkerPlugin.create sampleConfig = .ok p ∧ p.config = sampleConfig) ∧
      ¬ (∃ p : ServiceWorkerPlugin,
          ServiceWorkerPlugin.create { sampleConfig with mode := .undef } = .ok p ∧
            p.config = { sampleConfig with mode := .undef }) := by
  constructor
  · exact (swPlugin_create_ok_iff_strings sampleConfig).mpr (by decide)
  · intro h
    have := (swPlugin_create_ok_iff_strings
      { sampleConfig with mode := .undef }).mp h
    simp [sampleConfig, JsValue.isString] at this

/-- **C2.** In `production` mode with `injectManifest` not true, `apply`
invokes exactly the precache-generation strategy over the configured output
directory with destination `sw.<hash>.js`, and registers no write-file
plugin. -/
theorem swPlugin_production_generates (p : ServiceWorkerPlugin) (hash : String)
    (hmode : p.config.mode = .str "production")
    (hinject : p.config.injectManifest = false) :
    p.applyTo hash =
        [.generateSW p.config.paths.output.asString (swFileName hash)] ∧
      ∀ pattern log, SWEffect.writeFile pattern log ∉ p.applyTo hash := by
  have hdev : p.config.mode ≠ JsValue.str "development" := by
    rw [hmode]; decide
  constructor
  · simp [ServiceWorkerPlugin.applyTo, ServiceWorkerPlugin.applyWorkbox, hdev, hinject]
  · intro pattern log
    simp [ServiceWorkerPlugin.applyTo, ServiceWorkerPlugin.applyWorkbox, hdev, hinject]

/-- Witness for C2: a concrete production configuration yields only the
`GenerateSW` effect with destination `sw.1234.js`. -/
theorem swPlugin_production_generates_witness :
    ServiceWorkerPlugin.applyTo
        { config := { sampleConfig with mode := .str "production" } } "1234" =
        [.generateSW "path/to/assets" "sw.1234.js"] ∧
      ∀ pattern log,
        SWEffect.writeFile pattern log ∉
          ServiceWorkerPlugin.applyTo
            { config := { sampleConfig with mode := .str "production" } } "1234" := by
  have h := swPlugin_production_generates
    { config := { sampleConfig with mode := .str "production" } } "1234" rfl rfl
  exact ⟨h.1, h.2⟩

/-- **C3.** In `development` mode with `enableServiceWorkerDebugging` false,
`apply` emits no service worker at all — the only effect is a console
warning that no ServiceWorker is emitted in development mode. -/
theorem swPlugin_dev_noDebug_warns (p : ServiceWorkerPlugin) (hash : String)
    (hmode : p.config.mode = .str "development")
    (hdebug : p.config.enableServiceWorkerDebugging = false) :
    p.applyTo hash = [.warn "Emitting no ServiceWorker in development mode."] := by
  simp [ServiceWorkerPlugin.applyTo, hmode, hdebug]

/-- Witness for C3: the sample development configuration with debugging
disabled produces only the warning. -/
theorem swPlugin_dev_noDebug_warns_witness :
    ServiceWorkerPlugin.applyTo { config := sampleConfig } "1234" =
      [.warn "Emitting no ServiceWorker in development mode."] :=
  swPlugin_dev_noDebug_warns { config := sampleConfig } "1234" rfl rfl

/-- **C4.** In `development` mode with `enableServiceWorkerDebugging` true
and `injectManifest` not true, `apply` generates the service worker with
destination `sw.<hash>.js` and additionally registers the write-file plugin
with the end-anchored pattern built from exactly that filename. -/
theorem swPlugin_dev_debug_generates_and_writes (p : ServiceWorkerPlugin)
    (hash : String)
    (hmode : p.config.mode = .str "development")
    (hdebug : p.config.enableServiceWorkerDebugging = true)
    (hinject : p.config.injectManifest = false) :
    p.applyTo hash =
      [.generateSW p.config.paths.output.asString (swFileName hash),
       .writeFile (swFileName hash ++ "$") true] := by
  simp [ServiceWorkerPlugin.applyTo, ServiceWorkerPlugin.applyWorkbox, hmode,
    hdebug, hinject]

/-- Witness for C4: a concrete debugging-enabled development configuration
generates `sw.1234.js` and writes it to disk. -/
theorem swPlugin_dev_debug_generates_and_writes_witness :
    ServiceWorkerPlugin.applyTo
        { config := { sampleConfig with enableServiceWorkerDebugging := true } }
        "1234" =
      [.generateSW "path/to/assets" "sw.1234.js",
       .writeFile "sw.1234.js$" true] :=
  swPlugin_dev_debug_generates_and_writes
    { config := { sampleConfig with enableServiceWorkerDebugging := true } }
    "1234" rfl rfl rfl

/-- **C5, counterexample.** With `injectManifest` true but mode
`development` and `enableServiceWorkerDebugging` false, `apply` does not
delegate to the manifest-injection strategy at all: it only warns. This
refutes the claim that every configuration with `injectManifest` true
reaches `InjectManifest`. -/
theorem swPlugin_injectManifest_skipped_in_dev :
    ServiceWorkerPlugin.applyTo
        { config := { sampleConfig with injectManifest := true } } "1234" =
        [.warn "Emitting no ServiceWorker in development mode."] ∧
      ∀ cfg : InjectManifestConfig,
        SWEffect.injectManifest cfg ∉
          ServiceWorkerPlugin.applyTo
            { config := { sampleConfig with injectManifest := true } } "1234" := by
  constructor
  · rfl
  · intro cfg
    simp [ServiceWorkerPlugin.applyTo, sampleConfig]

/-- **C5, amended.** For every configuration with `injectManifest` true that
reaches worker generation at all — i.e. mode other than `development`, or
development with `enableServiceWorkerDebugging` true — `apply` delegates to
the manifest-injection strategy with the caller-supplied
`injectManifestConfig` and never invokes the precache-generation
strategy. -/
theorem swPlugin_injectManifest_delegates (p : ServiceWorkerPlugin)
    (hash : String)
    (hinject : p.config.injectManifest = true)
    (hreach : p.config.mode ≠ .str "development" ∨
      p.config.enableServiceWorkerDebugging = true) :
    SWEffect.injectManifest p.config.injectManifestConfig ∈ p.applyTo hash ∧
      ∀ dir dest, SWEffect.generateSW dir dest ∉ p.applyTo hash := by
  rcases hreach with hmode | hdebug
  · constructor
    · simp [ServiceWorkerPlugin.applyTo, ServiceWorkerPlugin.applyWorkbox, hmode, hinject]
    · intro dir dest
      simp [ServiceWorkerPlugin.applyTo, ServiceWorkerPlugin.applyWorkbox, hmode, hinject]
  · by_cases hmode : p.config.mode = JsValue.str "development"
    · constructor
      · simp [ServiceWorkerPlugin.applyTo, ServiceWorkerPlugin.applyWorkbox, hmode,
          hdebug, hinject]
      · intro dir dest
        simp [ServiceWorkerPlugin.applyTo, ServiceWorkerPlugin.applyWorkbox, hmode,
          hdebug, hinject]
    · constructor
      · simp [ServiceWorkerPlugin.applyTo, ServiceWorkerPlugin.applyWorkbox, hmode, hinject]
      · intro dir dest
        simp [ServiceWorkerPlugin.applyTo, ServiceWorkerPlugin.applyWorkbox, hmode, hinject]

/-- Witness for the amended C5: a debugging-enabled development
configuration with `injectManifest` true reaches `InjectManifest` with the
caller-supplied config and produces no `GenerateSW` effect. -/
theorem swPlugin_injectManifest_delegates_witness :
    SWEffect.injectManifest { swSrc := "path/to/sw", swDest := "path/to/dest" } ∈
        ServiceWorkerPlugin.applyTo
          { config := { sampleConfig with
              injectManifest := true, enableServiceWorkerDebugging := true } }
          "1234" ∧
      ∀ dir dest,
        SWEffect.generateSW dir dest ∉
          ServiceWorkerPlugin.applyTo
            { config := { sampleConfig with
                injectManifest := true, enableServiceWorkerDebugging := true } }
            "1234" := by
  have h := swPlugin_injectManifest_delegates
    { config := { sampleConfig with
        injectManifest := true, enableServiceWorkerDebugging := true } }
    "1234" rfl (Or.inr rfl)
  exact ⟨h.1, h.2⟩

/-- Environment for `addImgOptMiddleware`: the outcome of loading each
optional dependency at module load time (`require('apicache')` and
`require('hastily')`), and the outcome of each initialization call when its
inputs are available (`cache(cacheExpires, hastily.hasSupportedExtension,
…)` and `hastily.imageopto()`); errors carry the exception message. -/
structure ImgOptEnv where
  apicacheLoad : Except String Unit
  hastilyLoad : Except String Unit
  cacheInit : Except String Unit
  imageoptoInit : Except String Unit
deriving Repr

/-- First line of an exception message (`e.message.split('\n')[0]`). -/
def firstLine (msg : String) : String :=
  (msg.splitOn "\n").headD ""

/-- `markDepInvalid`: the entry appended to the `missingDeps` accumulator
for a failed dependency. -/
def markDepInvalid (dep msg : String) : String :=
  "- " ++ dep ++ ": Reason: " ++ firstLine msg ++ "\n"

/-- The `missingDeps` accumulator as it stands after the two module-level
`require` attempts. -/
def moduleMissingDeps (env : ImgOptEnv) : String :=
  (match env.apicacheLoad with
    | .error e => markDepInvalid "apicache" e
    | .ok _ => "") ++
  (match env.hastilyLoad with
    | .error e => markDepInvalid "hastily" e
    | .ok _ => "")

/-- Outcome of the `cache(cacheExpires, hastily.hasSupportedExtension, …)`
call inside `addImgOptMiddleware`: a `TypeError` when `apicache` failed to
load (`cache` is `undefined`) or when `hastily` failed to load (reading
`hasSupportedExtension` of `undefined`), otherwise the outcome of the
initialization itself. -/
def cacheCall (env : ImgOptEnv) : Except String Unit :=
  match env.apicacheLoad with
  | .error _ => .error "cache is not a function"
  | .ok _ =>
    match env.hastilyLoad with
    | .error _ => .error "Cannot read property hasSupportedExtension of undefined"
    | .ok _ => env.cacheInit

/-- Outcome of the `hastily.imageopto()` call inside `addImgOptMiddleware`. -/
def imageoptoCall (env : ImgOptEnv) : Except String Unit :=
  match env.hastilyLoad with
  | .error _ => .error "Cannot read property imageopto of undefined"
  | .ok _ => env.imageoptoInit

/-- The `missingDeps` accumulator after both guarded initialization calls
inside `addImgOptMiddleware` (each failure appends a `markDepInvalid`
entry). -/
def missingDepsAfterCalls (env : ImgOptEnv) : String :=
  moduleMissingDeps env ++
  (match cacheCall env with
    | .error e => markDepInvalid "apicache" e
    | .ok _ => "") ++
  (match imageoptoCall env with
    | .error e => markDepInvalid "hastily" e
    | .ok _ => "")

/-- Observable outcome of `addImgOptMiddleware`: the middleware mounted on
the app via `app.use` (in order), and the console warning, when one is
printed. The function is total — every exception of the JavaScript body is
caught and recorded, so no outcome models a thrown error. -/
structure ImgOptOutcome where
  mounted : List String
  warning : Option String
deriving DecidableEq, Repr

/-- Tail of the console warning, after the `missingDeps` listing. -/
def imgOptWarnTail : String :=
  "\nImages will be served uncompressed.\n\nIf possible, install additional tools to build NodeJS native dependencies:\nhttps://github.com/nodejs/node-gyp#installation"

/-- The console warning printed when `missingDeps` is non-empty. -/
def imgOptWarning (missingDeps : String) : String :=
  "Cannot add image optimization middleware due to dependencies that are not installed or are not compatible with this environment:\n" ++
    missingDeps ++ imgOptWarnTail

/-- `addImgOptMiddleware` from `src/unnamed/part_000`: runs the two guarded
initialization calls, then either warns (when `missingDeps` is non-empty)
or mounts `app.use(cacheMiddleware, imageopto)`. -/
def addImgOptMiddleware (env : ImgOptEnv) : ImgOptOutcome :=
  if missingDepsAfterCalls env = "" then
    { mounted := ["cacheMiddleware", "imageopto"], warning := none }
  else
    { mounted := [], warning := some (imgOptWarning (missingDepsAfterCalls env)) }

/-- `sub` occurs as a contiguous substring of `s`. -/
def strContains (s sub : String) : Prop :=
  sub.data <:+: s.data

theorem strContains_append_left (s t sub : String) (h : strContains t sub) :
    strContains (s ++ t) sub := by
  obtain ⟨a, b, hab⟩ := h
  exact ⟨s.data ++ a, b, by rw [String.data_append, ← hab]; simp⟩

theorem strContains_append_right (s t sub : String) (h : strContains s sub) :
    strContains (s ++ t) sub := by
  obtain ⟨a, b, hab⟩ := h
  exact ⟨a, b ++ t.data, by rw [String.data_append, ← hab]; simp⟩

theorem strContains_mark (dep msg : String) :
    strContains (markDepInvalid dep msg) dep := by
  refine ⟨"- ".data, (": Reason: " ++ firstLine msg ++ "\n").data, ?_⟩
  simp [markDepInvalid, String.data_append]

theorem string_append_eq_empty_iff (s t : String) :
    s ++ t = "" ↔ (s = "" ∧ t = "") := by
  constructor
  · intro h
    have hd : s.data ++ t.data = [] := by
      have h2 := congrArg String.data h
      simpa [String.data_append] using h2
    rcases List.append_eq_nil.mp hd with ⟨hs, ht⟩
    cases s
    cases t
    simp_all
  · rintro ⟨rfl, rfl⟩
    rfl

theorem markDepInvalid_ne_empty (dep msg : String) :
    ¬ markDepInvalid dep msg = "" := by
  intro h
  rw [markDepInvalid] at h
  rcases (string_append_eq_empty_iff _ _).mp h with ⟨h1, -⟩
  rcases (string_append_eq_empty_iff _ _).mp h1 with ⟨h2, -⟩
  rcases (string_append_eq_empty_iff _ _).mp h2 with ⟨h3, -⟩
  rcases (string_append_eq_empty_iff _ _).mp h3 with ⟨h4, -⟩
  exact absurd h4 (by decide)

/-- `true` exactly when an `Except` value is a success. -/
def exceptOk {ε α : Type} : Except ε α → Bool
  | .ok _ => true
  | .error _ => false

theorem cacheCall_ok_iff (env : ImgOptEnv) :
    exceptOk (cacheCall env) =
      (exceptOk env.apicacheLoad && exceptOk env.hastilyLoad &&
        exceptOk env.cacheInit) := by
  obtain ⟨aL, hL, cI, iI⟩ := env
  cases aL <;> cases hL <;> cases cI <;> simp [cacheCall, exceptOk]

theorem imageoptoCall_ok_iff (env : ImgOptEnv) :
    exceptOk (imageoptoCall env) =
      (exceptOk env.hastilyLoad && exceptOk env.imageoptoInit) := by
  obtain ⟨aL, hL, cI, iI⟩ := env
  cases hL <;> cases iI <;> simp [imageoptoCall, exceptOk]

theorem missingDeps_empty_iff (env : ImgOptEnv) :
    missingDepsAfterCalls env = "" ↔
      (exceptOk (cacheCall env) = true ∧ exceptOk (imageoptoCall env) = true) := by
  obtain ⟨aL, hL, cI, iI⟩ := env
  cases aL <;> cases hL <;> cases cI <;> cases iI <;>
    simp [missingDepsAfterCalls, moduleMissingDeps, cacheCall, imageoptoCall,
      string_append_eq_empty_iff, markDepInvalid_ne_empty, exceptOk]

theorem addImgOpt_eq_mount_iff (env : ImgOptEnv) :
    addImgOptMiddleware env =
        { mounted := ["cacheMiddleware", "imageopto"], warning := none } ↔
      missingDepsAfterCalls env = "" := by
  by_cases hm : missingDepsAfterCalls env = "" <;>
    simp [addImgOptMiddleware, hm]

theorem addImgOpt_warns (env : ImgOptEnv)
    (hbad : ¬ missingDepsAfterCalls env = "") :
    addImgOptMiddleware env =
      { mounted := [],
        warning := some (imgOptWarning (missingDepsAfterCalls env)) } := by
  simp [addImgOptMiddleware, hbad]

theorem imgOptWarning_contains_uncompressed (m : String) :
    strContains (imgOptWarning m) "Images will be served uncompressed." := by
  unfold imgOptWarning
  apply strContains_append_left
  refine ⟨"\n".data,
    ("\n\nIf possible, install additional tools to build NodeJS native dependencies:\nhttps://github.com/nodejs/node-gyp#installation").data, ?_⟩
  decide

theorem imgOptWarning_contains_apicache (env : ImgOptEnv) (e : String)
    (hc : cacheCall env = .error e) :
    strContains (imgOptWarning (missingDepsAfterCalls env)) "apicache" := by
  have hm : missingDepsAfterCalls env =
      moduleMissingDeps env ++ markDepInvalid "apicache" e ++
        (match imageoptoCall env with
          | Except.error e2 => markDepInvalid "hastily" e2
          | Except.ok _ => "") := by
    simp [missingDepsAfterCalls, hc]
  rw [hm]
  unfold imgOptWarning
  apply strContains_append_right
  apply strContains_append_left
  apply strContains_append_right
  apply strContains_append_left
  exact strContains_mark "apicache" e

theorem imgOptWarning_contains_hastily (env : ImgOptEnv) (e : String)
    (hi : imageoptoCall env = .error e) :
    strContains (imgOptWarning (missingDepsAfterCalls env)) "hastily" := by
  have hm : missingDepsAfterCalls env =
      moduleMissingDeps env ++
        (match cacheCall env with
          | Except.error e2 => markDepInvalid "apicache" e2
          | Except.ok _ => "") ++
        markDepInvalid "hastily" e := by
    simp [missingDepsAfterCalls, hi]
  rw [hm]
  unfold imgOptWarning
  apply strContains_append_right
  apply strContains_append_left
  apply strContains_append_left
  exact strContains_mark "hastily" e

/-- **C6.** `addImgOptMiddleware` degrades gracefully: it mounts the cache
middleware followed by the image-optimization middleware exactly when both
optional dependencies loaded and initialized successfully; otherwise it
mounts nothing and its (non-throwing) outcome is a console warning that
names each dependency that failed to load or initialize and states that
images will be served uncompressed. -/
theorem addImgOptMiddleware_graceful (env : ImgOptEnv) :
    (addImgOptMiddleware env =
        { mounted := ["cacheMiddleware", "imageopto"], warning := none } ↔
      (exceptOk env.apicacheLoad = true ∧ exceptOk env.hastilyLoad = true ∧
       exceptOk env.cacheInit = true ∧ exceptOk env.imageoptoInit = true)) ∧
    ((exceptOk env.apicacheLoad = false ∨ exceptOk env.hastilyLoad = false ∨
      exceptOk env.cacheInit = false ∨ exceptOk env.imageoptoInit = false) →
      (addImgOptMiddleware env).mounted = [] ∧
      ∃ w, (addImgOptMiddleware env).warning = some w ∧
        strContains w "Images will be served uncompressed." ∧
        ((exceptOk env.apicacheLoad = false ∨ exceptOk env.cacheInit = false) →
          strContains w "apicache") ∧
        ((exceptOk env.hastilyLoad = false ∨ exceptOk env.imageoptoInit = false) →
          strContains w "hastily")) := by
  constructor
  · rw [addImgOpt_eq_mount_iff, missingDeps_empty_iff, cacheCall_ok_iff,
      imageoptoCall_ok_iff]
    constructor
    · rintro ⟨h1, h2⟩
      simp [Bool.and_eq_true] at h1 h2
      exact ⟨h1.1.1, h1.1.2, h1.2, h2.2⟩
    · rintro ⟨h1, h2, h3, h4⟩
      simp [Bool.and_eq_true, h1, h2, h3, h4]
  · intro hbad
    have hbad' : ¬ missingDepsAfterCalls env = "" := by
      rw [missingDeps_empty_iff, cacheCall_ok_iff, imageoptoCall_ok_iff]
      rintro ⟨h1, h2⟩
      simp [Bool.and_eq_true] at h1 h2
      rcases hbad with h | h | h | h <;> simp_all
    have heq := addImgOpt_warns env hbad'
    refine ⟨by rw [heq], imgOptWarning (missingDepsAfterCalls env),
      by rw [heq], imgOptWarning_contains_uncompressed _, ?_, ?_⟩
    · intro hapi
      have hno : exceptOk (cacheCall env) = false := by
        rw [cacheCall_ok_iff]
        rcases hapi with h | h <;> simp [h]
      obtain ⟨e, he⟩ : ∃ e, cacheCall env = .error e := by
        rcases hcc : cacheCall env with e | u
        · exact ⟨e, rfl⟩
        · rw [hcc] at hno
          simp [exceptOk] at hno
      exact imgOptWarning_contains_apicache env e he
    · intro hhas
      have hno : exceptOk (imageoptoCall env) = false := by
        rw [imageoptoCall_ok_iff]
        rcases hhas with h | h <;> simp [h]
      obtain ⟨e, he⟩ : ∃ e, imageoptoCall env = .error e := by
        rcases hcc : imageoptoCall env with e | u
        · exact ⟨e, rfl⟩
        · rw [hcc] at hno
          simp [exceptOk] at hno
      exact imgOptWarning_contains_hastily env e he

/-- Witness for C6: with `hastily` failing to load (and every other step
fine) nothing is mounted and the warning names `hastily`; with every
dependency loading and initializing, both middleware are mounted in
order. -/
theorem addImgOptMiddleware_graceful_witness :
    ((addImgOptMiddleware
        { apicacheLoad := .ok (), hastilyLoad := .error "not installed",
          cacheInit := .ok (), imageoptoInit := .ok () }).mounted = [] ∧
      ∃ w, (addImgOptMiddleware
          { apicacheLoad := .ok (), hastilyLoad := .error "not installed",
            cacheInit := .ok (), imageoptoInit := .ok () }).warning = some w ∧
        strContains w "hastily") ∧
      addImgOptMiddleware
          { apicacheLoad := .ok (), hastilyLoad := .ok (),
            cacheInit := .ok (), imageoptoInit := .ok () } =
        { mounted := ["cacheMiddleware", "imageopto"], warning := none } := by
  constructor
  · obtain ⟨hm, w, hw, hun, hapi, hhas⟩ :=
      (addImgOptMiddleware_graceful
        { apicacheLoad := .ok (), hastilyLoad := .error "not installed",
          cacheInit := .ok (), imageoptoInit := .ok () }).2
        (Or.inr (Or.inl (by decide)))
    exact ⟨hm, w, hw, hhas (Or.inl (by decide))⟩
  · exact (addImgOptMiddleware_graceful
      { apicacheLoad := .ok (), hastilyLoad := .ok (),
        cacheInit := .ok (), imageoptoInit := .ok () }).1.mpr
      (by decide)

/-- Environment for `useCreateAccount`'s `handleSubmit`: the Node
environment name and the outcome of each awaited or called step of the
submission flow, in source order — the create-account mutation (including
the destructuring of its response), `userActions.getDetails.receive`, the
sign-in mutation, `setToken`, `removeCart`, `getCartDetails`, and the
`onSubmit` callback. Errors carry the thrown message. -/
structure SubmitEnv where
  nodeEnv : String
  createAccountR : Except String Unit
  receiveR : Except String Unit
  signInR : Except String Unit
  setTokenR : Except String Unit
  removeCartR : Except String Unit
  getCartDetailsR : Except String Unit
  onSubmitR : Except String Unit
deriving Repr

/-- The body of `handleSubmit`'s `try` block: the steps run in order and
the first failure aborts the rest. -/
def runSubmitSteps (env : SubmitEnv) : Except String Unit := do
  env.createAccountR
  env.receiveR
  env.signInR
  env.setTokenR
  env.removeCartR
  env.getCartDetailsR
  env.onSubmitR

/-- State observable after `handleSubmit` returns: the `isSubmitting` flag
and the messages passed to `console.error`. -/
structure HandlerState where
  isSubmitting : Bool
  consoleErrors : List String
deriving DecidableEq, Repr

/-- `handleSubmit` from `useCreateAccount.js`: sets `isSubmitting` to true,
runs the submission steps, and catches any error — logging it only when
`process.env.NODE_ENV === 'development'` and clearing `isSubmitting`. A
propagated exception would be an `Except.error` result; the catch makes the
result always `Except.ok`. -/
def handleSubmit (env : SubmitEnv) : Except String HandlerState :=
  match runSubmitSteps env with
  | .ok _ => .ok { isSubmitting := true, consoleErrors := [] }
  | .error e =>
    .ok { isSubmitting := false
          consoleErrors := if env.nodeEnv = "development" then [e] else [] }

/-- `isDisabled` as returned by the talon: it is the `isSubmitting` flag. -/
def isDisabled (s : HandlerState) : Bool :=
  s.isSubmitting

/-- A submission environment in a production build whose first step
throws. -/
def submitEnvProdFail : SubmitEnv :=
  { nodeEnv := "production"
    createAccountR := .error "boom"
    receiveR := .ok ()
    signInR := .ok ()
    setTokenR := .ok ()
    removeCartR := .ok ()
    getCartDetailsR := .ok ()
    onSubmitR := .ok () }

/-- **C7, counterexample.** In a production build (`NODE_ENV` not
`development`) a failing create-account step is caught and clears the
submitting flag, but nothing is logged — refuting the claim that any error
of the flow is logged. -/
theorem handleSubmit_not_logged_in_production :
    runSubmitSteps submitEnvProdFail = .error "boom" ∧
      handleSubmit submitEnvProdFail =
        .ok { isSubmitting := false, consoleErrors := [] } :=
  ⟨rfl, rfl⟩

/-- **C7, amended.** Any error thrown by any step of the submission flow is
caught inside the handler rather than propagated (the result is always
`.ok`), is logged exactly when `NODE_ENV` is `development`, and the
submitting flag is cleared, so the returned `isDisabled` is false. -/
theorem handleSubmit_catches_and_clears (env : SubmitEnv) (e : String)
    (h : runSubmitSteps env = .error e) :
    handleSubmit env =
        .ok { isSubmitting := false
              consoleErrors :=
                if env.nodeEnv = "development" then [e] else [] } ∧
      ∀ s, handleSubmit env = .ok s → isDisabled s = false := by
  constructor
  · simp [handleSubmit, h]
  · intro s hs
    rw [handleSubmit, h] at hs
    cases hs
    rfl

/-- Witness for the amended C7: in a development build a failing sign-in
step is caught, logged, and clears the flag. -/
theorem handleSubmit_catches_and_clears_witness :
    handleSubmit
        { nodeEnv := "development"
          createAccountR := .ok ()
          receiveR := .ok ()
          signInR := .error "request failed"
          setTokenR := .ok ()
          removeCartR := .ok ()
          getCartDetailsR := .ok ()
          onSubmitR := .ok () } =
      .ok { isSubmitting := false, consoleErrors := ["request failed"] } := by
  have h := handleSubmit_catches_and_clears
    { nodeEnv := "development"
      createAccountR := .ok ()
      receiveR := .ok ()
      signInR := .error "request failed"
      setTokenR := .ok ()
      removeCartR := .ok ()
      getCartDetailsR := .ok ()
      onSubmitR := .ok () } "request failed" rfl
  simpa using h.1

/-- An Apollo mutation error: it carries the array of GraphQL errors
reported by the server. -/
structure ApolloError where
  graphQLErrors : List String
deriving DecidableEq, Repr

/-- The `errors` array built by `useCreateAccount`: starts empty, pushes
`createAccountError.graphQLErrors[0]` when the create-account mutation
reported an error, then pushes `signInError.graphQLErrors[0]` when the
sign-in mutation did (`[0]` of an empty array is `undefined`, hence the
`Option` elements). -/
def computeErrors (createAccountError signInError : Option ApolloError) :
    List (Option String) :=
  let errors : List (Option String) := []
  let errors :=
    match createAccountError with
    | some err => errors ++ [err.graphQLErrors.head?]
    | none => errors
  match signInError with
  | some err => errors ++ [err.graphQLErrors.head?]
  | none => errors

/-- **C8.** The `errors` array surfaces GraphQL errors to the form: it is
the first GraphQL error of the create-account mutation exactly when that
mutation reported an error, followed by the first GraphQL error of the
sign-in mutation exactly when that one did, and is empty when neither
reported an error. -/
theorem useCreateAccount_errors_surface
    (createAccountError signInError : Option ApolloError) :
    computeErrors createAccountError signInError =
        (createAccountError.map fun err => err.graphQLErrors.head?).toList ++
          (signInError.map fun err => err.graphQLErrors.head?).toList ∧
      (createAccountError = none → signInError = none →
        computeErrors createAccountError signInError = []) := by
  cases createAccountError <;> cases signInError <;>
    refine ⟨rfl, fun h1 h2 => ?_⟩ <;> simp_all [computeErrors]

/-- Witness for C8: one concrete error on each mutation yields the two
first errors in order; no errors yield the empty array. -/
theorem useCreateAccount_errors_surface_witness :
    computeErrors (some { graphQLErrors := ["email taken"] })
        (some { graphQLErrors := ["bad credentials", "other"] }) =
        [some "email taken", some "bad credentials"] ∧
      computeErrors none none = [] := by
  constructor
  · exact (useCreateAccount_errors_surface
      (some { graphQLErrors := ["email taken"] })
      (some { graphQLErrors := ["bad credentials", "other"] })).1
  · exact (useCreateAccount_errors_surface none none).2 rfl rfl

/-- A money amount as it appears in the cart GraphQL data; the numeric
`value` is modelled as a rational. -/
structure Money where
  currency : String
  value : ℚ
deriving DecidableEq, Repr

/-- One entry of the `discounts` array of the price-summary fragment. -/
structure Discount where
  amount : Money
deriving DecidableEq, Repr

/-- The default amount returned for a missing or empty discounts list. -/
def DEFAULT_AMOUNT : Money :=
  { currency := "USD", value := 0 }

/-- `getDiscount` from `discountSummary.js`: `none` models a `null` or
`undefined` argument (the JS default parameter turns an omitted argument
into `[]`, also covered); an empty list gives the default amount; otherwise
the first discount's currency is paired with the `reduce` sum of all
`amount.value` fields. -/
def getDiscount (discounts : Option (List Discount)) : Money :=
  match discounts with
  | none => DEFAULT_AMOUNT
  | some [] => DEFAULT_AMOUNT
  | some (d :: rest) =>
    { currency := d.amount.currency
      value := (d :: rest).foldl (fun acc dc => acc + dc.amount.value) 0 }

theorem foldl_add_map (f : Discount → ℚ) (l : List Discount) (c : ℚ) :
    l.foldl (fun acc dc => acc + f dc) c = c + (l.map f).sum := by
  induction l generalizing c with
  | nil => simp
  | cons d rest ih =>
    rw [List.foldl_cons, ih]
    simp [add_assoc]

/-- **C9.** `getDiscount` is total over its input: a `null`, `undefined`,
or empty discounts list gives the default amount `{currency: 'USD',
value: 0}`; a non-empty list gives the currency of the first discount
together with the sum of the `amount.value` fields of all discounts. -/
theorem getDiscount_total (discounts : Option (List Discount)) :
    (discounts = none → getDiscount discounts = DEFAULT_AMOUNT) ∧
      (discounts = some [] → getDiscount discounts = DEFAULT_AMOUNT) ∧
      ∀ d rest, discounts = some (d :: rest) →
        getDiscount discounts =
          { currency := d.amount.currency
            value := ((d :: rest).map fun dc => dc.amount.value).sum } := by
  refine ⟨fun h => by rw [h]; rfl, fun h => by rw [h]; rfl, fun d rest h => ?_⟩
  rw [h]
  show Money.mk d.amount.currency _ = Money.mk d.amount.currency _
  rw [foldl_add_map (fun dc => dc.amount.value) (d :: rest) 0, zero_add]

/-- Witness for C9: a two-element list yields the first currency and the
summed value; `none` yields the default amount. -/
theorem getDiscount_total_witness :
    getDiscount
        (some [{ amount := { currency := "EUR", value := 3 } },
               { amount := { currency := "USD", value := 4 } }]) =
        { currency := "EUR", value := 7 } ∧
      getDiscount none = DEFAULT_AMOUNT := by
  constructor
  · have h := (getDiscount_total
      (some [{ amount := { currency := "EUR", value := 3 } },
             { amount := { currency := "USD", value := 4 } }])).2.2
      { amount := { currency := "EUR", value := 3 } }
      [{ amount := { currency := "USD", value := 4 } }] rfl
    rw [h]
    norm_num
  · exact (getDiscount_total none).1 rfl

/-- The current user as the `useAuthModal` effect observes it: a record
whose `id` may be absent. JavaScript truthiness makes both an absent and a
zero `id` fail the `currentUser.id` check. -/
structure CurrentUser where
  id : Option Int
deriving DecidableEq, Repr

/-- The views reserved for unauthenticated users. -/
def UNAUTHED_ONLY : List String :=
  ["CREATE_ACCOUNT", "FORGOT_PASSWORD", "SIGN_IN"]

/-- JavaScript truthiness of the numeric `id` field: `null`, `undefined`
and `0` are falsy. -/
def truthyId : Option Int → Bool
  | none => false
  | some n => n != 0

/-- The body of the `useEffect` in `useAuthModal`: `true` exactly when the
effect invokes `showMyAccount()` (the guard
`currentUser && currentUser.id && UNAUTHED_ONLY.includes(view)` passes). -/
def authModalRedirects (currentUser : Option CurrentUser) (view : String) : Bool :=
  match currentUser with
  | none => false
  | some u => truthyId u.id && UNAUTHED_ONLY.contains view

/-- **C10, counterexample.** A current user whose `id` field is present but
`0` is in the SIGN_IN view, yet the effect invokes nothing — JavaScript
truthiness makes `currentUser.id` fail — refuting the claim that having an
id and being in an unauthenticated-only view always triggers the
redirect. -/
theorem authModal_id_zero_no_redirect :
    ({ id := some 0 } : CurrentUser).id.isSome = true ∧
      "SIGN_IN" ∈ UNAUTHED_ONLY ∧
      authModalRedirects (some { id := some 0 }) "SIGN_IN" = false := by
  decide

/-- **C10, amended.** Whenever the current user has a truthy (present and
non-zero) id and the view is one of CREATE_ACCOUNT, FORGOT_PASSWORD, or
SIGN_IN, the effect invokes `showMyAccount`; for the MENU view, a missing
user, or a user without a truthy id, it invokes nothing. -/
theorem authModal_redirect_invariant :
    (∀ (u : CurrentUser) (view : String), truthyId u.id = true →
        view ∈ UNAUTHED_ONLY → authModalRedirects (some u) view = true) ∧
      (∀ currentUser, authModalRedirects currentUser "MENU" = false) ∧
      (∀ view, authModalRedirects none view = false) ∧
      (∀ (u : CurrentUser) (view : String), truthyId u.id = false →
        authModalRedirects (some u) view = false) := by
  refine ⟨?_, ?_, ?_, ?_⟩
  · intro u view htruthy hview
    simp [authModalRedirects, htruthy]
    exact hview
  · intro currentUser
    cases currentUser with
    | none => rfl
    | some u =>
      simp [authModalRedirects]
      intro h
      decide
  · intro view
    rfl
  · intro u view htruthy
    simp [authModalRedirects, htruthy]

/-- Witness for the amended C10: a user with id 7 in the SIGN_IN view is
redirected; the same user in the MENU view, and a user with no truthy id in
the SIGN_IN view, are not. -/
theorem authModal_redirect_invariant_witness :
    authModalRedirects (some { id := some 7 }) "SIGN_IN" = true ∧
      authModalRedirects (some { id := some 7 }) "MENU" = false ∧
      authModalRedirects (some { id := none }) "SIGN_IN" = false := by
  refine ⟨?_, ?_, ?_⟩
  · exact authModal_redirect_invariant.1 { id := some 7 } "SIGN_IN"
      (by decide) (by decide)
  · exact authModal_redirect_invariant.2.1 (some { id := some 7 })
  · exact authModal_redirect_invariant.2.2.2 { id := none } "SIGN_IN" (by decide)

end PwaStudio
